import Mathlib

/-!
Verification of the multi-account credential and watch-lifecycle subsystem of
gogcli.  Pure functions are embedded directly from the Go source; components
whose implementation is not part of the provided sources (the loopback OAuth
manage server, the encrypted-store password resolution, the watch lifecycle
commands and the error taxonomy) are modelled from the specification, with the
repository test suite pinning the observable behaviour.
-/

namespace Gogcli

/-- Modelled from the spec: the ephemeral OAuthSession of the loopback manage
server, one per server instance, holding the CSRF token for mutating admin
endpoints and the single-use OAuth state bound into the authorization URL. -/
structure ManageSession where
  csrfToken : String
  oauthState : String

/-- Query parameters of a GET /oauth2/callback request.  A missing parameter
is represented by the empty string, as Go reads them with Query().Get. -/
structure CallbackQuery where
  errorParam : String
  state : String
  code : String

/-- Result of running the OAuth callback handler: the HTTP status written and
whether a token exchange with the external provider was attempted. -/
structure CallbackResult where
  status : Nat
  exchanged : Bool
deriving DecidableEq

/-- Modelled from the spec: GET /oauth2/callback.  An error parameter yields a
200 cancellation page; a state mismatch yields 400; a missing code yields 400;
otherwise the code is exchanged with the provider (outcome abstracted by the
exchangeOk argument: success page 200, exchange failure surfaced as 500). -/
def handleOAuthCallback (oauthState : String) (q : CallbackQuery)
    (exchangeOk : Bool) : CallbackResult :=
  if q.errorParam ≠ "" then ⟨200, false⟩
  else if q.state ≠ oauthState then ⟨400, false⟩
  else if q.code = "" then ⟨400, false⟩
  else if exchangeOk then ⟨200, true⟩ else ⟨500, true⟩

/-- C2: without an error parameter, a state mismatch yields 400 and a correct
state with a missing code yields 400; in both cases no token exchange with the
external provider is attempted. -/
theorem oauthCallback_validation_400 (oauthState : String) (q : CallbackQuery)
    (exchangeOk : Bool) (herr : q.errorParam = "") :
    (q.state ≠ oauthState →
      handleOAuthCallback oauthState q exchangeOk = ⟨400, false⟩) ∧
    (q.state = oauthState → q.code = "" →
      handleOAuthCallback oauthState q exchangeOk = ⟨400, false⟩) := by
  constructor
  · intro hne
    simp [handleOAuthCallback, herr, hne]
  · intro hst hcode
    simp [handleOAuthCallback, herr, hst, hcode]

/-- Witness for C2 at concrete inputs: a mismatched state and a missing code
each produce a 400 response with no exchange attempted. -/
theorem oauthCallback_validation_400_witness :
    handleOAuthCallback "state1" ⟨"", "nope", "abc"⟩ true = ⟨400, false⟩ ∧
    handleOAuthCallback "state1" ⟨"", "state1", ""⟩ true = ⟨400, false⟩ :=
  ⟨(oauthCallback_validation_400 "state1" ⟨"", "nope", "abc"⟩ true rfl).1
      (by decide),
   (oauthCallback_validation_400 "state1" ⟨"", "state1", ""⟩ true rfl).2
      rfl rfl⟩

/-- C3: a callback carrying an error parameter is answered 200 (cancellation
page), regardless of the state and code parameters, and no token exchange is
attempted. -/
theorem oauthCallback_error_cancellation (oauthState : String)
    (q : CallbackQuery) (exchangeOk : Bool) (herr : q.errorParam ≠ "") :
    handleOAuthCallback oauthState q exchangeOk = ⟨200, false⟩ := by
  simp [handleOAuthCallback, herr]

/-- Witness for C3: error=access_denied yields status 200 with no exchange,
even with a mismatched state and a present code. -/
theorem oauthCallback_error_cancellation_witness :
    handleOAuthCallback "state1" ⟨"access_denied", "nope", "abc"⟩ true
      = ⟨200, false⟩ :=
  oauthCallback_error_cancellation "state1" ⟨"access_denied", "nope", "abc"⟩
    true (by decide)

/-- Stored credential record, keyed by account email (only the fields the
manage server reads are modelled). -/
structure Token where
  email : String
  services : List String
deriving DecidableEq

/-- Modelled from the spec: the Token Store capability, together with a log of
the mutating calls made on it (the spy of the repository test suite), so that
frame conditions such as "no SetDefaultAccount or DeleteToken call is made"
are expressible. -/
structure Store where
  tokens : List Token
  defaultEmail : String
  setDefaultCalls : List String
  deleteCalls : List String
deriving DecidableEq

/-- Modelled from the spec: SetDefaultAccount records the email as the
default; the spy log gains one entry. -/
def Store.setDefaultAccount (s : Store) (email : String) : Store :=
  { s with defaultEmail := email,
           setDefaultCalls := s.setDefaultCalls ++ [email] }

/-- Modelled from the spec: DeleteToken removes the token stored under the
email; the spy log gains one entry. -/
def Store.deleteToken (s : Store) (email : String) : Store :=
  { s with tokens := s.tokens.filter (fun t => t.email ≠ email),
           deleteCalls := s.deleteCalls ++ [email] }

/-- Whether some token is stored under the given email. -/
def Store.hasEmail (s : Store) (email : String) : Bool :=
  s.tokens.any (fun t => t.email == email)

/-- Modelled from the spec: POST /set-default.  A header not equal to the
session CSRF token yields 403 before any state is touched; an unknown email
yields a 404-class error; otherwise the store records the new default and the
handler answers 200. -/
def handleSetDefault (sess : ManageSession) (st : Store)
    (headerToken email : String) : Nat × Store :=
  if headerToken ≠ sess.csrfToken then (403, st)
  else if st.hasEmail email = false then (404, st)
  else (200, st.setDefaultAccount email)

/-- Modelled from the spec: POST /remove-account, with the same CSRF and
unknown-email handling as /set-default; on success the email is deleted from
the store exactly once. -/
def handleRemoveAccount (sess : ManageSession) (st : Store)
    (headerToken email : String) : Nat × Store :=
  if headerToken ≠ sess.csrfToken then (403, st)
  else if st.hasEmail email = false then (404, st)
  else (200, st.deleteToken email)

/-- C1 counterexample: with a matching CSRF token but an email that names no
stored account, /set-default answers 404, not 200 (the spec routes unknown
emails to a 404-class error), so the claim as stated fails. -/
theorem setDefault_unknown_email_404 :
    ("csrf" = (ManageSession.mk "csrf" "st").csrfToken) ∧
    (handleSetDefault (ManageSession.mk "csrf" "st")
        (Store.mk [Token.mk "a@b.com" []] "" [] []) "csrf" "z@w.com").1 = 404 ∧
    (handleSetDefault (ManageSession.mk "csrf" "st")
        (Store.mk [Token.mk "a@b.com" []] "" [] []) "csrf" "z@w.com").1 ≠ 200 := by
  refine ⟨rfl, ?_, ?_⟩ <;> decide

/-- C1 amended: a CSRF mismatch yields 403 with the store untouched (so no
SetDefaultAccount or DeleteToken call is made); with a matching header and an
email that names a stored account, /set-default records that email as the
default and /remove-account deletes exactly that email once, both answering
200. -/
theorem manage_csrf_protection (sess : ManageSession) (st : Store)
    (headerToken email : String) :
    (headerToken ≠ sess.csrfToken →
      handleSetDefault sess st headerToken email = (403, st) ∧
      handleRemoveAccount sess st headerToken email = (403, st)) ∧
    (headerToken = sess.csrfToken → st.hasEmail email = true →
      handleSetDefault sess st headerToken email
          = (200, st.setDefaultAccount email) ∧
      (st.setDefaultAccount email).defaultEmail = email ∧
      (st.setDefaultAccount email).setDefaultCalls
          = st.setDefaultCalls ++ [email] ∧
      handleRemoveAccount sess st headerToken email
          = (200, st.deleteToken email) ∧
      (st.deleteToken email).deleteCalls = st.deleteCalls ++ [email] ∧
      (st.deleteToken email).hasEmail email = false) := by
  constructor
  · intro hne
    constructor <;> simp [handleSetDefault, handleRemoveAccount, hne]
  · intro heq hmem
    refine ⟨?_, rfl, rfl, ?_, rfl, ?_⟩
    · simp [handleSetDefault, heq, hmem]
    · simp [handleRemoveAccount, heq, hmem]
    · simp [Store.deleteToken, Store.hasEmail, List.any_eq_true]

/-- Witness for the amended C1 at concrete inputs: a wrong header leaves the
store untouched with status 403, and a matching header on a stored email
records the default, deletes the account, and answers 200. -/
theorem manage_csrf_protection_witness :
    (handleSetDefault (ManageSession.mk "csrf" "st")
        (Store.mk [Token.mk "a@b.com" []] "" [] []) "nope" "a@b.com"
      = (403, Store.mk [Token.mk "a@b.com" []] "" [] [])) ∧
    (handleSetDefault (ManageSession.mk "csrf" "st")
        (Store.mk [Token.mk "a@b.com" []] "" [] []) "csrf" "a@b.com").1 = 200 ∧
    (handleRemoveAccount (ManageSession.mk "csrf" "st")
        (Store.mk [Token.mk "a@b.com" []] "" [] []) "csrf" "a@b.com").1 = 200 := by
  have h1 := (manage_csrf_protection (ManageSession.mk "csrf" "st")
    (Store.mk [Token.mk "a@b.com" []] "" [] []) "nope" "a@b.com").1 (by decide)
  have h2 := (manage_csrf_protection (ManageSession.mk "csrf" "st")
    (Store.mk [Token.mk "a@b.com" []] "" [] []) "csrf" "a@b.com").2 rfl
    (by decide)
  exact ⟨h1.1, by rw [h2.1], by rw [h2.2.2.2.1]⟩

/-- Derived read-only account entry returned by GET /accounts. -/
structure AccountInfo where
  email : String
  services : List String
  isDefault : Bool
deriving DecidableEq

/-- View of a stored token as an account entry with the given default flag. -/
def Token.toInfo (t : Token) (isDefault : Bool) : AccountInfo :=
  ⟨t.email, t.services, isDefault⟩

/-- Whether the configured default account names a stored token: a non-empty
email present in the token set. -/
def hasStoredDefault (tokens : List Token) (d : String) : Bool :=
  d != "" && tokens.any (fun t => t.email == d)

/-- Modelled from the spec: the default-first account list.  If the configured
default names a stored account, that entry is marked default and sorted first;
otherwise the first entry of the underlying list is marked default, without
mutating stored state. -/
def listAccounts (tokens : List Token) (d : String) : List AccountInfo :=
  if hasStoredDefault tokens d then
    (tokens.filter fun t => t.email == d).map (fun t => t.toInfo true)
      ++ (tokens.filter fun t => !(t.email == d)).map (fun t => t.toInfo false)
  else
    match tokens with
    | [] => []
    | t :: ts => t.toInfo true :: ts.map (fun t => t.toInfo false)

/-- Email that the read-time derivation marks as default: the configured
default when it names a stored account, else the first stored email. -/
def defaultEmailOf (tokens : List Token) (d : String) : String :=
  if hasStoredDefault tokens d then d
  else
    match tokens with
    | [] => ""
    | t :: _ => t.email

/-- Modelled from the spec: GET /accounts returns the registry's list as JSON
with status 200 and performs no mutation of the store. -/
def handleListAccounts (st : Store) : Nat × List AccountInfo × Store :=
  (200, listAccounts st.tokens st.defaultEmail, st)

theorem filter_email_length_one (tokens : List Token) (d : String)
    (hnd : (tokens.map Token.email).Nodup) (hmem : ∃ t ∈ tokens, t.email = d) :
    (tokens.filter fun t => t.email == d).length = 1 := by
  induction tokens with
  | nil => simp at hmem
  | cons t ts ih =>
    simp only [List.map_cons, List.nodup_cons] at hnd
    by_cases he : t.email = d
    · rw [List.filter_cons_of_pos (by simp [he])]
      have hnil : (ts.filter fun x => x.email == d) = [] := by
        refine List.filter_eq_nil_iff.2 (fun x hx hxd => ?_)
        exact hnd.1 (List.mem_map.2 ⟨x, hx, (eq_of_beq hxd).trans he.symm⟩)
      simp [hnil]
    · rw [List.filter_cons_of_neg (by simp [he])]
      refine ih hnd.2 ?_
      rcases hmem with ⟨u, hu, hue⟩
      rcases List.mem_cons.1 hu with rfl | hu2
      · exact absurd hue he
      · exact ⟨u, hu2, hue⟩

theorem listAccounts_countP (tokens : List Token) (d : String)
    (hne : tokens ≠ []) (hnd : (tokens.map Token.email).Nodup) :
    (listAccounts tokens d).countP (fun a => a.isDefault) = 1 := by
  by_cases hc : hasStoredDefault tokens d = true
  · have hmem : ∃ t ∈ tokens, t.email = d := by
      have hc2 := hc
      simp only [hasStoredDefault, Bool.and_eq_true, List.any_eq_true] at hc2
      rcases hc2.2 with ⟨t, ht, he⟩
      exact ⟨t, ht, eq_of_beq he⟩
    have hz : List.countP (fun a => a.isDefault)
        ((tokens.filter fun t => !(t.email == d)).map
          (fun t => t.toInfo false)) = 0 := by
      rw [List.countP_map]
      exact List.countP_eq_zero.2 (fun t _ => by simp [Token.toInfo, Function.comp])
    have hl : List.countP (fun a => a.isDefault)
        ((tokens.filter fun t => t.email == d).map
          (fun t => t.toInfo true))
        = (tokens.filter fun t => t.email == d).length := by
      rw [List.countP_map]
      refine List.countP_eq_length.2 (fun t _ => ?_)
      simp [Token.toInfo, Function.comp]
    simp only [listAccounts, if_pos hc, List.countP_append, hz, hl, Nat.add_zero]
    exact filter_email_length_one tokens d hnd hmem
  · simp only [listAccounts, if_neg hc]
    match tokens, hne with
    | t :: ts, _ =>
      simp only [List.countP_cons, List.countP_map]
      have hz : List.countP ((fun a => a.isDefault) ∘ (fun t => t.toInfo false)) ts = 0 :=
        List.countP_eq_zero.2 (fun x _ => by simp [Token.toInfo, Function.comp])
      simp [hz, Token.toInfo]

theorem listAccounts_default_iff (tokens : List Token) (d : String)
    (hnd : (tokens.map Token.email).Nodup) :
    ∀ a ∈ listAccounts tokens d,
      (a.isDefault = true ↔ a.email = defaultEmailOf tokens d) := by
  intro a ha
  by_cases hc : hasStoredDefault tokens d = true
  · simp only [listAccounts, defaultEmailOf, if_pos hc] at ha ⊢
    rcases List.mem_append.1 ha with h1 | h2
    · rcases List.mem_map.1 h1 with ⟨t, ht, rfl⟩
      have hp := (List.mem_filter.1 ht).2
      simp [Token.toInfo, eq_of_beq hp]
    · rcases List.mem_map.1 h2 with ⟨t, ht, rfl⟩
      have hp := (List.mem_filter.1 ht).2
      simp only [Bool.not_eq_true', beq_eq_false_iff_ne] at hp
      simp [Token.toInfo, hp]
  · simp only [listAccounts, defaultEmailOf, if_neg hc] at ha ⊢
    match tokens, hnd, ha with
    | t :: ts, hnd, ha =>
      simp only [List.map_cons, List.nodup_cons] at hnd
      rcases List.mem_cons.1 ha with rfl | h2
      · simp [Token.toInfo]
      · rcases List.mem_map.1 h2 with ⟨x, hx, rfl⟩
        simp only [Token.toInfo]
        constructor
        · intro hfalse; cases hfalse
        · intro hxe
          exact absurd (List.mem_map.2 ⟨x, hx, hxe⟩) hnd.1

/-- C8: for every store with a non-empty token set (emails pairwise distinct,
the Token Store invariant), GET /accounts answers 200, leaves the store
unchanged, and its list carries exactly one entry with isDefault true: the
entry for GetDefaultAccount() when that names a stored account, else the first
entry of the underlying list. -/
theorem handleListAccounts_exactly_one_default (st : Store)
    (hne : st.tokens ≠ [])
    (hnd : (st.tokens.map Token.email).Nodup) :
    (handleListAccounts st).1 = 200 ∧
    (handleListAccounts st).2.2 = st ∧
    ((handleListAccounts st).2.1).countP (fun a => a.isDefault) = 1 ∧
    ∀ a ∈ (handleListAccounts st).2.1,
      (a.isDefault = true ↔ a.email = defaultEmailOf st.tokens st.defaultEmail) :=
  ⟨rfl, rfl, listAccounts_countP st.tokens st.defaultEmail hne hnd,
   listAccounts_default_iff st.tokens st.defaultEmail hnd⟩

/-- Witness for C8 at the concrete store of the repository test: two accounts
and no configured default; the first entry is the unique default. -/
theorem handleListAccounts_exactly_one_default_witness :
    ((handleListAccounts
        (Store.mk [Token.mk "a@b.com" ["gmail"], Token.mk "c@d.com" ["drive"]]
          "" [] [])).2.1).countP (fun a => a.isDefault) = 1 :=
  (handleListAccounts_exactly_one_default
    (Store.mk [Token.mk "a@b.com" ["gmail"], Token.mk "c@d.com" ["drive"]]
      "" [] []) (by decide) (by decide)).2.2.1

/-- Substring containment on strings, stated on the underlying character
lists. -/
def containsSub (sub s : String) : Prop :=
  sub.data <:+: s.data

theorem containsSub_append_right (a b : String) : containsSub b (a ++ b) := by
  unfold containsSub
  rw [String.data_append]
  exact (List.suffix_append a.data b.data).isInfix

/-- Fixed name of the environment variable holding the encrypted file store
password (the repository test references it as keyringPasswordEnv). -/
def keyringPasswordEnv : String := "GOG_KEYRING_PASSWORD"

/-- Outcome of the password function returned by fileKeyringPasswordFuncFrom:
an available password is used directly, otherwise either the interactive
prompt runs or the resolution fails closed. -/
inductive PasswordOutcome where
  | usePassword (pw : String)
  | promptInteractive (promptMsg : String)
  | failNoSource (msg : String)
deriving DecidableEq

/-- Modelled from the spec: the encrypted file store resolves its password
with strict precedence: an explicit or environment-supplied value first (the
prompt argument ignored), else an interactive prompt when allowed, else it
fails closed with an error naming the required environment variable, never
falling back to a default password. -/
def fileKeyringPasswordFuncFrom (password : String) (allowPrompt : Bool) :
    String → PasswordOutcome :=
  fun promptMsg =>
    if password ≠ "" then .usePassword password
    else if allowPrompt then .promptInteractive promptMsg
    else .failNoSource ("keyring password not available; set " ++ keyringPasswordEnv)

/-- C4: a non-empty password value is returned with no error, the prompt
argument ignored; with no password available and prompting disallowed the
function fails with a message naming the required environment variable, and it
never produces any password in that case. -/
theorem fileKeyringPasswordFuncFrom_spec (password promptMsg : String)
    (allowPrompt : Bool) (hpw : password ≠ "") :
    (fileKeyringPasswordFuncFrom password allowPrompt promptMsg
      = .usePassword password) ∧
    (fileKeyringPasswordFuncFrom "" false promptMsg
      = .failNoSource
          ("keyring password not available; set " ++ keyringPasswordEnv)) ∧
    containsSub keyringPasswordEnv
      ("keyring password not available; set " ++ keyringPasswordEnv) ∧
    (∀ q : String,
      fileKeyringPasswordFuncFrom "" false promptMsg ≠ .usePassword q) := by
  refine ⟨?_, ?_, containsSub_append_right _ _, ?_⟩
  · simp [fileKeyringPasswordFuncFrom, hpw]
  · simp [fileKeyringPasswordFuncFrom]
  · intro q
    simp [fileKeyringPasswordFuncFrom]

/-- Witness for C4: password pw with prompting disallowed is used as is, and
the empty password fails closed. -/
theorem fileKeyringPasswordFuncFrom_spec_witness :
    fileKeyringPasswordFuncFrom "pw" false "ignored" = .usePassword "pw" ∧
    fileKeyringPasswordFuncFrom "" false "ignored"
      = .failNoSource
          ("keyring password not available; set " ++ keyringPasswordEnv) :=
  ⟨(fileKeyringPasswordFuncFrom_spec "pw" "ignored" false (by decide)).1,
   (fileKeyringPasswordFuncFrom_spec "pw" "ignored" false (by decide)).2.1⟩

/-- Configuration of the watch serve webhook receiver. -/
structure ServeConfig where
  bind : String
  port : Int
  path : String
  token : String
  verifyOIDC : Bool
deriving DecidableEq

/-- Modelled from the spec: whether the bind address is a local loopback
interface. -/
def isLoopbackBind (bind : String) : Bool :=
  bind == "127.0.0.1" || bind == "::1" || bind == "localhost" || bind == ""

/-- Outcome of watch serve: either the receiver is listening or a
configuration error was reported. -/
inductive ServeOutcome where
  | listening
  | configError (msg : String)
deriving DecidableEq

/-- Whether a string starts with the / character. -/
def startsWithSlash (s : String) : Bool :=
  match s.data with
  | [] => false
  | c :: _ => c == '/'

/-- Modelled from the spec: serve validates its configuration before binding
any socket; the error strings are those asserted by the repository test. -/
def validateServe (c : ServeConfig) : Option String :=
  if !(startsWithSlash c.path) then some "--path must start with /"
  else if c.port ≤ 0 then some "--port must be > 0"
  else if !(isLoopbackBind c.bind) && c.token == "" && !c.verifyOIDC then
    some "--verify-oidc or --token required for non-loopback bind"
  else none

/-- Modelled from the spec: serve runs validation first; the boolean records
whether a listening socket was ever opened. -/
def serve (c : ServeConfig) : ServeOutcome × Bool :=
  match validateServe c with
  | some msg => (.configError msg, false)
  | none => (.listening, true)

/-- C5: a path not starting with / fails mentioning that --path must start
with /; with a valid path, a port at most 0 fails mentioning that --port must
be positive; with valid path and port, a non-loopback bind with neither a
shared token nor OIDC verification fails requiring --verify-oidc or --token;
in each case no socket is bound. -/
theorem serve_validates_before_binding (c : ServeConfig) :
    (startsWithSlash c.path = false →
      serve c = (.configError "--path must start with /", false)) ∧
    (startsWithSlash c.path = true → c.port ≤ 0 →
      serve c = (.configError "--port must be > 0", false)) ∧
    (startsWithSlash c.path = true → 0 < c.port →
      isLoopbackBind c.bind = false → c.token = "" → c.verifyOIDC = false →
      serve c = (.configError
        "--verify-oidc or --token required for non-loopback bind", false)) := by
  refine ⟨?_, ?_, ?_⟩
  · intro hp
    simp [serve, validateServe, hp]
  · intro hp hport
    simp [serve, validateServe, hp, hport]
  · intro hp hport hbind htok hoidc
    simp [serve, validateServe, hp, hbind, htok, hoidc, Int.not_le.2 hport]

/-- Witness for C5 at the three configurations of the repository test: a path
not starting with /, a zero port, and an unauthenticated bind to 0.0.0.0. -/
theorem serve_validates_before_binding_witness :
    serve (ServeConfig.mk "127.0.0.1" 8080 "nope" "" false)
      = (.configError "--path must start with /", false) ∧
    serve (ServeConfig.mk "127.0.0.1" 0 "/notifications" "" false)
      = (.configError "--port must be > 0", false) ∧
    serve (ServeConfig.mk "0.0.0.0" 8080 "/x" "" false)
      = (.configError
          "--verify-oidc or --token required for non-loopback bind", false) :=
  ⟨(serve_validates_before_binding
      (ServeConfig.mk "127.0.0.1" 8080 "nope" "" false)).1 (by decide),
   (serve_validates_before_binding
      (ServeConfig.mk "127.0.0.1" 0 "/notifications" "" false)).2.1
      (by decide) (by decide),
   (serve_validates_before_binding
      (ServeConfig.mk "0.0.0.0" 8080 "/x" "" false)).2.2
      (by decide) (by decide) (by decide) rfl rfl⟩

/-- Persisted per-account watch subscription state; its absence means the
account is not watching. -/
structure WatchState where
  email : String
  topic : String
  labelIDs : List String
  historyID : String
  expiration : Int
deriving DecidableEq

/-- Status report of the watch lifecycle, a pure read of persisted state. -/
inductive WatchStatusReport where
  | watching (remainingMs : Int)
  | notWatching
deriving DecidableEq

/-- Modelled from the spec: status reads the persisted state only; absence of
a WatchState means NotWatching. -/
def watchStatus (st : Option WatchState) (now : Int) : WatchStatusReport :=
  match st with
  | none => .notWatching
  | some w => .watching (w.expiration - now)

/-- Distinct outcomes of watch stop: stopped now versus an idempotent no-op. -/
inductive StopOutcome where
  | stoppedNow
  | alreadyStopped
deriving DecidableEq

/-- Result of watch stop: its reported outcome, the persisted state left
behind, and how many remote stop calls were issued. -/
structure StopResult where
  outcome : StopOutcome
  state : Option WatchState
  remoteStopCalls : Nat
deriving DecidableEq

/-- Modelled from the spec: stop calls the external stop-watch operation when
a subscription is recorded, then unconditionally deletes the persisted state,
even if the remote call partially failed (the remoteOk argument); on an
already NotWatching account it is a safe no-op reported distinctly. -/
def watchStop (st : Option WatchState) (_remoteOk : Bool) : StopResult :=
  match st with
  | none => ⟨.alreadyStopped, none, 0⟩
  | some _ => ⟨.stoppedNow, none, 1⟩

/-- C6: after stop the persisted state is absent regardless of the remote stop
outcome, so a subsequent status reports NotWatching; stop on a NotWatching
account is a safe no-op reported distinctly and leaves no state file. -/
theorem watchStop_deletes_state (st : Option WatchState) (remoteOk : Bool)
    (now : Int) :
    (watchStop st remoteOk).state = none ∧
    watchStatus (watchStop st remoteOk).state now = .notWatching ∧
    (watchStop none remoteOk).outcome = .alreadyStopped ∧
    (watchStop none remoteOk).state = none ∧
    (watchStop none remoteOk).remoteStopCalls = 0 := by
  cases st <;> simp [watchStop, watchStatus]

/-- Error kinds of the watch lifecycle; renew on a NotWatching account fails
with the NotWatching kind. -/
inductive WatchError where
  | notWatching
  | remote (msg : String)
deriving DecidableEq

/-- Kind predicate for the NotWatching error. -/
def isNotWatchingError : WatchError → Bool
  | .notWatching => true
  | _ => false

/-- Result of watch renew: an optional error, the persisted state left behind,
and how many calls to the external begin-watch operation were issued. -/
structure RenewResult where
  err : Option WatchError
  state : Option WatchState
  beginWatchCalls : Nat
deriving DecidableEq

/-- Modelled from the spec: renew requires Watching; otherwise it fails with a
NotWatching-kind error and creates no state.  On a Watching account it
re-invokes the external begin-watch operation once and overwrites historyID
and expiration with the values the provider returned. -/
def watchRenew (st : Option WatchState) (newHistoryID : String)
    (newExpiration : Int) : RenewResult :=
  match st with
  | none => ⟨some .notWatching, none, 0⟩
  | some w =>
    ⟨none, some { w with historyID := newHistoryID, expiration := newExpiration }, 1⟩

/-- C7: renew on a NotWatching account fails with a NotWatching-kind error,
creates no state and issues no provider call; renew on a Watching account
succeeds with exactly one additional begin-watch call, overwrites historyID
and expiration while keeping email, topic and labels, and the account stays
Watching. -/
theorem watchRenew_requires_watching (w : WatchState) (newHistoryID : String)
    (newExpiration : Int) (now : Int) :
    ((watchRenew none newHistoryID newExpiration).err = some .notWatching ∧
     isNotWatchingError WatchError.notWatching = true ∧
     (watchRenew none newHistoryID newExpiration).state = none ∧
     (watchRenew none newHistoryID newExpiration).beginWatchCalls = 0) ∧
    ((watchRenew (some w) newHistoryID newExpiration).err = none ∧
     (watchRenew (some w) newHistoryID newExpiration).beginWatchCalls = 1 ∧
     (watchRenew (some w) newHistoryID newExpiration).state
       = some (WatchState.mk w.email w.topic w.labelIDs newHistoryID
           newExpiration) ∧
     watchStatus (watchRenew (some w) newHistoryID newExpiration).state now
       = .watching (newExpiration - now)) := by
  simp [watchRenew, watchStatus, isNotWatchingError]

/-- Modelled from the spec: AuthRequired error value (credential missing or
expired for an account and service pair). -/
structure AuthRequiredError where
  service : String
  email : String
deriving DecidableEq

/-- Modelled from the spec: RateLimit error value carrying the retry-after
duration (in seconds; zero when absent) and the retry count. -/
structure RateLimitError where
  retryAfterSec : Nat
  retries : Nat
deriving DecidableEq

/-- Modelled from the spec: CircuitBreaker fail-fast error value. -/
structure CircuitBreakerError where
deriving DecidableEq

/-- Modelled from the spec: QuotaExceeded error value naming the resource. -/
structure QuotaExceededError where
  resource : String
deriving DecidableEq

/-- Modelled from the spec: NotFound error value with resource and optional
id (empty string when absent). -/
structure NotFoundError where
  resource : String
  id : String
deriving DecidableEq

/-- Modelled from the spec: PermissionDenied error value with resource and
optional action (empty string when absent). -/
structure PermissionDeniedError where
  resource : String
  action : String
deriving DecidableEq

/-- Modelled from the spec: message of a NotFoundError, omitting the id when
absent; the exact strings are those asserted by the repository test. -/
def NotFoundError.Error (e : NotFoundError) : String :=
  if e.id = "" then e.resource ++ " not found"
  else e.resource ++ " not found: " ++ e.id

/-- Modelled from the spec: message of a PermissionDeniedError, varying on
whether an action is known. -/
def PermissionDeniedError.Error (e : PermissionDeniedError) : String :=
  if e.action = "" then "permission denied for " ++ e.resource
  else "permission denied: cannot " ++ e.action ++ " " ++ e.resource

/-- Modelled from the spec: message of a RateLimitError, stating the
retry-after duration when one is set, else the retry count that drove the
decision. -/
def RateLimitError.Error (e : RateLimitError) : String :=
  if e.retryAfterSec ≠ 0 then
    "rate limited: " ++ ("retry after " ++ toString e.retryAfterSec ++ "s")
  else "rate limited " ++ ("after " ++ toString e.retries ++ " retries")

/-- Modelled from the spec: the cross-cutting error taxonomy as a tagged
union; callers match on the kind. -/
inductive GoogleAPIError where
  | authRequired (e : AuthRequiredError)
  | rateLimit (e : RateLimitError)
  | circuitBreaker (e : CircuitBreakerError)
  | quotaExceeded (e : QuotaExceededError)
  | notFound (e : NotFoundError)
  | permissionDenied (e : PermissionDeniedError)
deriving DecidableEq

/-- Kind predicate matching Go IsAuthRequiredError. -/
def IsAuthRequiredError : GoogleAPIError → Bool
  | .authRequired _ => true
  | _ => false

/-- Kind predicate matching Go IsRateLimitError. -/
def IsRateLimitError : GoogleAPIError → Bool
  | .rateLimit _ => true
  | _ => false

/-- Kind predicate matching Go IsCircuitBreakerError. -/
def IsCircuitBreakerError : GoogleAPIError → Bool
  | .circuitBreaker _ => true
  | _ => false

/-- Kind predicate matching Go IsQuotaExceededError. -/
def IsQuotaExceededError : GoogleAPIError → Bool
  | .quotaExceeded _ => true
  | _ => false

/-- Kind predicate matching Go IsNotFoundError. -/
def IsNotFoundError : GoogleAPIError → Bool
  | .notFound _ => true
  | _ => false

/-- Kind predicate matching Go IsPermissionDeniedError. -/
def IsPermissionDeniedError : GoogleAPIError → Bool
  | .permissionDenied _ => true
  | _ => false

/-- C9: NotFound and PermissionDenied messages are conditional on the optional
id and action; the RateLimit message states the retry-after duration when set
and the retry count when the retries drove the decision; and every kind
satisfies its own IsXError predicate. -/
theorem googleapi_error_messages (r i a : String) (n m : Nat)
    (hi : i ≠ "") (ha : a ≠ "") (hn : n ≠ 0) :
    (NotFoundError.Error ⟨r, ""⟩ = r ++ " not found") ∧
    (NotFoundError.Error ⟨r, i⟩ = r ++ " not found: " ++ i) ∧
    (PermissionDeniedError.Error ⟨r, ""⟩ = "permission denied for " ++ r) ∧
    (PermissionDeniedError.Error ⟨r, a⟩
      = "permission denied: cannot " ++ a ++ " " ++ r) ∧
    containsSub ("retry after " ++ toString n ++ "s")
      (RateLimitError.Error ⟨n, m⟩) ∧
    containsSub ("after " ++ toString m ++ " retries")
      (RateLimitError.Error ⟨0, m⟩) ∧
    (∀ e, IsAuthRequiredError (.authRequired e) = true) ∧
    (∀ e, IsRateLimitError (.rateLimit e) = true) ∧
    (∀ e, IsCircuitBreakerError (.circuitBreaker e) = true) ∧
    (∀ e, IsQuotaExceededError (.quotaExceeded e) = true) ∧
    (∀ e, IsNotFoundError (.notFound e) = true) ∧
    (∀ e, IsPermissionDeniedError (.permissionDenied e) = true) := by
  refine ⟨?_, ?_, ?_, ?_, ?_, ?_, fun e => rfl, fun e => rfl, fun e => rfl,
    fun e => rfl, fun e => rfl, fun e => rfl⟩
  · simp [NotFoundError.Error]
  · simp [NotFoundError.Error, hi]
  · simp [PermissionDeniedError.Error]
  · simp [PermissionDeniedError.Error, ha]
  · have hmsg : RateLimitError.Error ⟨n, m⟩
        = "rate limited: " ++ ("retry after " ++ toString n ++ "s") := by
      simp [RateLimitError.Error, hn]
    rw [hmsg]
    exact containsSub_append_right _ _
  · have hmsg : RateLimitError.Error ⟨0, m⟩
        = "rate limited " ++ ("after " ++ toString m ++ " retries") := by
      simp [RateLimitError.Error]
    rw [hmsg]
    exact containsSub_append_right _ _

/-- Witness for C9 at the concrete values of the repository test: resource
file, id id1, action delete, a two-second retry-after and one retry. -/
theorem googleapi_error_messages_witness :
    (NotFoundError.Error ⟨"file", ""⟩ = "file" ++ " not found") ∧
    (NotFoundError.Error ⟨"file", "id1"⟩ = "file" ++ " not found: " ++ "id1") ∧
    (PermissionDeniedError.Error ⟨"file", ""⟩
      = "permission denied for " ++ "file") ∧
    (PermissionDeniedError.Error ⟨"file", "delete"⟩
      = "permission denied: cannot " ++ "delete" ++ " " ++ "file") ∧
    containsSub ("retry after " ++ toString 2 ++ "s")
      (RateLimitError.Error ⟨2, 3⟩) ∧
    containsSub ("after " ++ toString 1 ++ " retries")
      (RateLimitError.Error ⟨0, 1⟩) ∧
    IsNotFoundError (.notFound ⟨"msg", "id"⟩) = true := by
  have h := googleapi_error_messages "file" "id1" "delete" 2 1
    (by decide) (by decide) (by decide)
  exact ⟨h.1, h.2.1, h.2.2.1, h.2.2.2.1, h.2.2.2.2.1, h.2.2.2.2.2.1,
    h.2.2.2.2.2.2.2.2.2.2.1 ⟨"msg", "id"⟩⟩

/-- Character class of Go unicode.IsSpace, used by strings.TrimSpace. -/
def goIsSpace (c : Char) : Bool :=
  c == ' ' || c == '\t' || c == '\n' || c.val == 11 || c.val == 12 ||
  c == '\r' || c.val == 0x85 || c.val == 0xA0 || c.val == 0x1680 ||
  (decide (0x2000 ≤ c.val) && decide (c.val ≤ 0x200A)) ||
  c.val == 0x2028 || c.val == 0x2029 || c.val == 0x202F ||
  c.val == 0x205F || c.val == 0x3000

/-- Go strings.TrimSpace on the character list: leading and trailing white
space removed. -/
def goTrimSpace (l : List Char) : List Char :=
  ((l.dropWhile goIsSpace).reverse.dropWhile goIsSpace).reverse

/-- Go strings.ReplaceAll(s, single backslash, /) on the character list. -/
def normalizeSeps (l : List Char) : List Char :=
  l.map (fun c => if c = '\\' then '/' else c)

/-- Go path/filepath.Base on a unix separator: the empty path gives a dot,
a path of only separators gives /, otherwise the last element of the path
after trailing separators are removed. -/
def filepathBase (path : String) : String :=
  if path = "" then "."
  else if path.data.reverse.dropWhile (fun c => c == '/') = [] then "/"
  else
    String.mk (((path.data.reverse.dropWhile (fun c => c == '/')).takeWhile
      (fun ch => !(ch == '/'))).reverse)

/-- Base name of the name flag after trimming and separator normalization,
as computed inside sanitizeAttachmentFilename. -/
def attachmentBaseName (name : String) : String :=
  filepathBase (String.mk (normalizeSeps (goTrimSpace name.data)))

/-- Default filename used when the name flag yields no usable base name. -/
def defaultGmailAttachmentFilename : String := "attachment.bin"

/-- Embedded from gmail_attachment.go: trim the name, normalize Windows-style
separators to /, take the base name, and fall back when the result is empty,
a dot, or a double dot. -/
def sanitizeAttachmentFilename (name fallback : String) : String :=
  if attachmentBaseName name = "" ∨ attachmentBaseName name = "."
      ∨ attachmentBaseName name = ".." then fallback
  else attachmentBaseName name

theorem normalizeSeps_no_backslash (l : List Char) :
    ∀ c ∈ normalizeSeps l, c ≠ '\\' := by
  intro c hc
  rcases List.mem_map.1 hc with ⟨x, hx, rfl⟩
  by_cases hb : x = '\\' <;> simp [hb]

/-- C10 counterexample: the name consisting of a single / character survives
sanitization unchanged, because Go filepath.Base of / is /, which is neither
empty nor a dot nor a double dot; the returned filename therefore contains a
path separator, contradicting the claim. -/
theorem sanitizeAttachmentFilename_slash_cex :
    sanitizeAttachmentFilename "/" defaultGmailAttachmentFilename = "/" ∧
    '/' ∈ (sanitizeAttachmentFilename "/" defaultGmailAttachmentFilename).data := by
  constructor <;> decide

/-- C10 amended: sanitizeAttachmentFilename returns the fallback exactly when
the base name of the normalized name is empty, a dot or a double dot, and the
base name otherwise; the returned filename is the fallback, or the single
character / (when the trimmed normalized name consists solely of separators),
or else contains no path separator and is not a parent-directory reference. -/
theorem sanitizeAttachmentFilename_single_component (name fallback : String) :
    (attachmentBaseName name = "" ∨ attachmentBaseName name = "."
        ∨ attachmentBaseName name = ".." →
      sanitizeAttachmentFilename name fallback = fallback) ∧
    (¬(attachmentBaseName name = "" ∨ attachmentBaseName name = "."
        ∨ attachmentBaseName name = "..") →
      sanitizeAttachmentFilename name fallback = attachmentBaseName name) ∧
    (sanitizeAttachmentFilename name fallback = fallback ∨
     sanitizeAttachmentFilename name fallback = "/" ∨
     (sanitizeAttachmentFilename name fallback ≠ ".." ∧
      sanitizeAttachmentFilename name fallback ≠ "." ∧
      sanitizeAttachmentFilename name fallback ≠ "" ∧
      ∀ c ∈ (sanitizeAttachmentFilename name fallback).data,
        c ≠ '/' ∧ c ≠ '\\')) := by
  refine ⟨fun hf => by simp [sanitizeAttachmentFilename, hf], fun hf => by
    simp [sanitizeAttachmentFilename, hf], ?_⟩
  by_cases hf : attachmentBaseName name = "" ∨ attachmentBaseName name = "."
      ∨ attachmentBaseName name = ".."
  · exact Or.inl (by simp [sanitizeAttachmentFilename, hf])
  · have hs : sanitizeAttachmentFilename name fallback = attachmentBaseName name := by
      simp [sanitizeAttachmentFilename, hf]
    push_neg at hf
    right
    by_cases hmt : String.mk (normalizeSeps (goTrimSpace name.data)) = ""
    · exfalso
      refine hf.2.1 ?_
      unfold attachmentBaseName filepathBase
      rw [if_pos hmt]
    · by_cases hr : (String.mk (normalizeSeps (goTrimSpace name.data))).data.reverse.dropWhile
          (fun c => c == '/') = []
      · left
        rw [hs]
        unfold attachmentBaseName filepathBase
        rw [if_neg hmt, if_pos hr]
      · right
        refine ⟨hs ▸ hf.2.2, hs ▸ hf.2.1, hs ▸ hf.1, ?_⟩
        intro c hc
        have hbase : (attachmentBaseName name).data
            = (((String.mk (normalizeSeps (goTrimSpace name.data))).data.reverse.dropWhile
                (fun c => c == '/')).takeWhile (fun ch => !(ch == '/'))).reverse := by
          unfold attachmentBaseName filepathBase
          rw [if_neg hmt, if_neg hr]
        rw [hs, hbase, List.mem_reverse] at hc
        constructor
        · have hp := List.mem_takeWhile_imp hc
          simpa using hp
        · have h1 : c ∈ (String.mk (normalizeSeps (goTrimSpace name.data))).data.reverse.dropWhile
              (fun c => c == '/') := (List.takeWhile_sublist _).subset hc
          have h2 : c ∈ (String.mk (normalizeSeps (goTrimSpace name.data))).data.reverse :=
            (List.dropWhile_sublist _).subset h1
          exact normalizeSeps_no_backslash (goTrimSpace name.data) c
            (List.mem_reverse.1 h2)

/-- Witness for the amended C10: a double-dot name falls back to the default
filename; a name with a directory prefix keeps only its base name. -/
theorem sanitizeAttachmentFilename_single_component_witness :
    sanitizeAttachmentFilename ".." defaultGmailAttachmentFilename
      = defaultGmailAttachmentFilename ∧
    sanitizeAttachmentFilename "sub/name.txt" defaultGmailAttachmentFilename
      = attachmentBaseName "sub/name.txt" :=
  ⟨(sanitizeAttachmentFilename_single_component ".."
      defaultGmailAttachmentFilename).1 (by decide),
   (sanitizeAttachmentFilename_single_component "sub/name.txt"
      defaultGmailAttachmentFilename).2.1 (by decide)⟩

end Gogcli
